import Mathlib

/-!
Shallow embedding of the `min-sqlite3-sys` binding layer
(`src/min-sqlite3-sys/src/{bindings,connection,statement,operations,ehandle}.rs`).

The native SQLite library is opaque to the wrapper, so every wrapper function
is embedded as a pure function of the integer statuses / pointers / column
contents the native calls would produce, and it additionally returns the list
of native calls it performs (with the argument of interest recorded), so that
call-count and call-argument properties can be stated.
-/

set_option linter.unusedVariables false

deriving instance DecidableEq for Except

namespace MinSqlite3

/-- Result-code enumeration from `bindings.rs` (`SqlitePrimaryResult`,
lines 15-261): one constructor per enumerated native status code, plus the
fallback `Other` carrying a raw integer. -/
inductive SqlitePrimaryResult : Type
  | Other (code : Int)
  | Ok
  | Error
  | Internal
  | Perm
  | Abort
  | Busy
  | Locked
  | NoMem
  | Readonly
  | Interrupt
  | IoErr
  | Corrupt
  | NotFound
  | Full
  | CantOpen
  | Protocol
  | Empty
  | Schema
  | TooBig
  | Constrait
  | MisMatch
  | Misuse
  | NoLfs
  | Auth
  | Format
  | Range
  | NotADB
  | Notice
  | Warning
  deriving DecidableEq, Repr

/-- The `repr(i32)` discriminants assigned in `bindings.rs`:
`Other(i32) = -1`, `Ok = 0`, ..., `Warning = 28`. -/
def SqlitePrimaryResult.discriminant : SqlitePrimaryResult → Int
  | .Other _ => -1
  | .Ok => 0
  | .Error => 1
  | .Internal => 2
  | .Perm => 3
  | .Abort => 4
  | .Busy => 5
  | .Locked => 6
  | .NoMem => 7
  | .Readonly => 8
  | .Interrupt => 9
  | .IoErr => 10
  | .Corrupt => 11
  | .NotFound => 12
  | .Full => 13
  | .CantOpen => 14
  | .Protocol => 15
  | .Empty => 16
  | .Schema => 17
  | .TooBig => 18
  | .Constrait => 19
  | .MisMatch => 20
  | .Misuse => 21
  | .NoLfs => 22
  | .Auth => 23
  | .Format => 24
  | .Range => 25
  | .NotADB => 26
  | .Notice => 27
  | .Warning => 28

/-- Whether the value is the fallback `Other` variant. -/
def SqlitePrimaryResult.isOtherB : SqlitePrimaryResult → Bool
  | .Other _ => true
  | _ => false

/-- `impl From<i32> for SqlitePrimaryResult` (`bindings.rs:263-298`): the
literal match arms `0 => Ok`, ..., `28 => Warning`, `other_id => Other(other_id)`. -/
def SqlitePrimaryResult.fromCode (value : Int) : SqlitePrimaryResult :=
  if value = 0 then .Ok
  else if value = 1 then .Error
  else if value = 2 then .Internal
  else if value = 3 then .Perm
  else if value = 4 then .Abort
  else if value = 5 then .Busy
  else if value = 6 then .Locked
  else if value = 7 then .NoMem
  else if value = 8 then .Readonly
  else if value = 9 then .Interrupt
  else if value = 10 then .IoErr
  else if value = 11 then .Corrupt
  else if value = 12 then .NotFound
  else if value = 13 then .Full
  else if value = 14 then .CantOpen
  else if value = 15 then .Protocol
  else if value = 16 then .Empty
  else if value = 17 then .Schema
  else if value = 18 then .TooBig
  else if value = 19 then .Constrait
  else if value = 20 then .MisMatch
  else if value = 21 then .Misuse
  else if value = 22 then .NoLfs
  else if value = 23 then .Auth
  else if value = 24 then .Format
  else if value = 25 then .Range
  else if value = 26 then .NotADB
  else if value = 27 then .Notice
  else if value = 28 then .Warning
  else .Other value

/-- The Rust cast `status as i8` (`operations.rs`, e.g. line 1027): keep the
low 8 bits of the 32-bit status and reinterpret them in two's complement. -/
def asI8 (v : Int) : Int :=
  if v % 256 < 128 then v % 256 else v % 256 - 256

/-- The Rust cast `i as os::raw::c_int` applied to a `usize` index
(`operations.rs`, every bind/column call): keep the low 32 bits and
reinterpret them in two's complement. For `i < 2^31` it is the identity. -/
def usizeAsCInt (i : Nat) : Int :=
  if i % 2 ^ 32 < 2 ^ 31 then ((i % 2 ^ 32 : Nat) : Int)
  else ((i % 2 ^ 32 : Nat) : Int) - 2 ^ 32

/-- Modelled from the spec: `SqlitePrimaryResult::from_i8` is invoked
throughout `operations.rs` but its definition is not among the sources under
`src/`. The spec describes the result-code type as a "closed enumeration
mirroring the native library's integer status codes ... with a fallback
variant carrying the raw integer", so on its 8-bit argument the conversion
agrees with the `From<i32>` conversion of `bindings.rs`. -/
def SqlitePrimaryResult.from_i8 (v : Int) : SqlitePrimaryResult :=
  SqlitePrimaryResult.fromCode v

/-- `PreparedStatementStatus` from `statement.rs:15-25`:
`Other(i32)`, `FoundRow`, `Done`. -/
inductive PreparedStatementStatus : Type
  | Other (code : Int)
  | FoundRow
  | Done
  deriving DecidableEq, Repr

/-- One native SQLite call performed by the wrapper, recording the argument
the claims reason about (the pointer being released, or the index forwarded
to a bind/column routine). -/
inductive NativeCall : Type
  | openDb (path : List Nat)
  | closeDb (rp : Nat)
  | exec (rp : Nat)
  | prepareV2 (rp : Nat)
  | step (stmtPtr : Nat)
  | finalize (stmtPtr : Nat)
  | bindInt64 (pos : Int)
  | columnType (col : Int)
  | columnInt64 (col : Int)
  | columnText (col : Int)
  | columnBlob (col : Int)
  | columnBytes (col : Int)
  deriving DecidableEq, Repr

/-- Number of occurrences of one native call in a trace. -/
def countCalls (c : NativeCall) : List NativeCall → Nat
  | [] => 0
  | x :: xs => (if x = c then 1 else 0) + countCalls c xs

/-- `std::ffi::NulError`: produced by `CString::new` when the supplied bytes
contain a 0 byte; carries the position of the first one. -/
structure NulError : Type where
  pos : Nat
  deriving DecidableEq, Repr

/-- `MinSqliteWrapperError` from `ehandle.rs:11-16`. -/
structure MinSqliteWrapperError : Type where
  kind : String
  reason : String
  deriving DecidableEq, Repr

/-- `impl From<NulError> for MinSqliteWrapperError` (`ehandle.rs:18-25`):
kind `"std:ffi:NulError"`, reason the rendered error message. -/
def NulError.toWrapper (e : NulError) : MinSqliteWrapperError :=
  { kind := "std:ffi:NulError",
    reason := "nul byte found in provided data at position: " ++ toString e.pos }

/-- `CString::new` on the bytes of the statement / path: fails exactly when
the bytes contain a 0 byte (reporting the first position), otherwise yields
the same bytes (with a terminating NUL appended by the native side). -/
def cstringNew (bytes : List Nat) : Except NulError (List Nat) :=
  if 0 ∈ bytes then .error ⟨bytes.indexOf 0⟩ else .ok bytes

/-- `Database` from `connection.rs:16-19`: wraps the raw `sqlite3` pointer
(`0` stands for the null pointer). -/
structure Database : Type where
  rp : Nat
  deriving DecidableEq, Repr

/-- `SqlStatement` from `statement.rs:27-29`: wraps the raw `sqlite3_stmt`
pointer (`0` stands for the null pointer). It derives `Clone`, which copies
the raw pointer. -/
structure SqlStatement : Type where
  ptr : Nat
  deriving DecidableEq, Repr

/-- `derive(Clone)` on `SqlStatement` copies the pointer field. -/
def SqlStatement.clone (st : SqlStatement) : SqlStatement :=
  { ptr := st.ptr }

/-- Free function `sqlite_close` (`connection.rs:82-85`): one native
`sqlite3_close` call, converted through `From<i32>`. `nativeStatus` is the
integer the native call returns. -/
def sqlite_close (rp : Nat) (nativeStatus : Int) :
    SqlitePrimaryResult × List NativeCall :=
  (SqlitePrimaryResult.fromCode nativeStatus, [.closeDb rp])

/-- Body of `Connection::close for Database` (`connection.rs:71-73`):
`sqlite_close(self.rp)`. -/
def Database.closeBody (db : Database) (nativeStatus : Int) :
    SqlitePrimaryResult × List NativeCall :=
  sqlite_close db.rp nativeStatus

/-- `Drop for Database` (`connection.rs:76-80`): `sqlite_close(self.rp)`,
result discarded. -/
def Database.dropRun (db : Database) (nativeStatus : Int) : List NativeCall :=
  (sqlite_close db.rp nativeStatus).2

/-- The full native-call trace of one explicit `db.close()` invocation.
`close` takes `self` by value (`fn close(self)`) and its body neither
returns nor forgets `self`, so when the body finishes the value goes out of
scope and `Drop for Database` runs on it: the trace is the body's native
calls followed by the drop's. `s1` and `s2` are the statuses the two native
`sqlite3_close` calls return. -/
def Database.closeCall (db : Database) (s1 s2 : Int) :
    SqlitePrimaryResult × List NativeCall :=
  let b := db.closeBody s1
  (b.1, b.2 ++ db.dropRun s2)

/-- `SqlStatement::kill` (`statement.rs:202-204`): one native
`sqlite3_finalize` call on the wrapped pointer, converted through
`From<i32>`. It takes `&self`, so the value stays live afterwards. -/
def SqlStatement.kill (st : SqlStatement) (nativeStatus : Int) :
    SqlitePrimaryResult × List NativeCall :=
  (SqlitePrimaryResult.fromCode nativeStatus, [.finalize st.ptr])

/-- `Drop for SqlStatement` (`statement.rs:34-38`): calls `self.kill()`,
result discarded. -/
def SqlStatement.dropRun (st : SqlStatement) (nativeStatus : Int) :
    List NativeCall :=
  (st.kill nativeStatus).2

/-- Native-call trace of an explicit `sql.kill()` followed by the automatic
drop of the same value at end of scope (`kill` borrows, so the drop still
runs). -/
def SqlStatement.killThenDrop (st : SqlStatement) (s1 s2 : Int) :
    List NativeCall :=
  (st.kill s1).2 ++ st.dropRun s2

/-- Native-call trace of dropping a statement together with a clone of it:
both values wrap the same pointer and each drop finalizes it. -/
def SqlStatement.dropWithClone (st : SqlStatement) (s1 s2 : Int) :
    List NativeCall :=
  st.dropRun s1 ++ (st.clone).dropRun s2

/-- `SqlStatement::execute_prepared` (`statement.rs:74-80`): one native
`sqlite3_step` call, whose status is matched literally:
`100 => FoundRow`, `101 => Done`, `other_id => Other(other_id)`. -/
def SqlStatement.execute_prepared (st : SqlStatement) (nativeStepStatus : Int) :
    PreparedStatementStatus × List NativeCall :=
  (if nativeStepStatus = 100 then .FoundRow
   else if nativeStepStatus = 101 then .Done
   else .Other nativeStepStatus,
   [.step st.ptr])

/-- `COLUMN_NULL` from `bindings.rs:315`: the native NULL column-type tag. -/
def COLUMN_NULL : Nat := 5

/-- The native column state the `sqlite3_column_*` routines read:
`ctype` is what `sqlite3_column_type` returns (a `c_int`), `intVal` what
`sqlite3_column_int64` returns. -/
structure ColumnOracle : Type where
  ctype : Int
  intVal : Int
  deriving DecidableEq, Repr

/-- The comparison `sqlite3_column_type(..) as u32 == COLUMN_NULL` from the
`Option` impls of `get_data` (`operations.rs`, e.g. lines 463): the `c_int`
is cast to `u32` (low 32 bits), then compared with 5. -/
def ctypeIsNull (t : Int) : Bool :=
  (t % 2 ^ 32).toNat = COLUMN_NULL

/-- `ColumnCapabilities for i64 :: get_data` (`operations.rs:489-496`):
a single `sqlite3_column_int64` call at column `i as c_int`; the
column-type tag is never queried. -/
def getData_i64 (o : ColumnOracle) (i : Nat) :
    Except MinSqliteWrapperError Int × List NativeCall :=
  (.ok o.intVal, [.columnInt64 (usizeAsCInt i)])

/-- `ColumnCapabilities for Option<i64> :: get_data` (`operations.rs:456-469`):
first `sqlite3_column_type`; if the tag is the NULL tag the call returns
`None` with no further native call, otherwise `sqlite3_column_int64` decodes
the value. -/
def getData_optI64 (o : ColumnOracle) (i : Nat) :
    Except MinSqliteWrapperError (Option Int) × List NativeCall :=
  if ctypeIsNull o.ctype then
    (.ok none, [.columnType (usizeAsCInt i)])
  else
    (.ok (some o.intVal), [.columnType (usizeAsCInt i), .columnInt64 (usizeAsCInt i)])

/-- `SqlStatement::bind_val` (`statement.rs:177-183`) composed with
`ColumnCapabilities for i64 :: bind_val` (`operations.rs:498-510`): index 0
short-circuits to `Range` with no native call; otherwise one native
`sqlite3_bind_int64` at parameter position `i as c_int`, whose status is
converted through `from_i8(.. as i8)`. `nativeStatus` is the integer the
native bind call would return. -/
def SqlStatement.bind_val_i64 (st : SqlStatement) (i : Nat) (v : Int)
    (nativeStatus : Int) : SqlitePrimaryResult × List NativeCall :=
  if i = 0 then (.Range, [])
  else (.from_i8 (asI8 nativeStatus), [.bindInt64 (usizeAsCInt i)])

/-- `SqlStatement::get_data` (`statement.rs:130-135`) delegates to
`ColumnCapabilities::get_data` on the wrapped pointer; shown here at the
`i64` instance. -/
def SqlStatement.get_data_i64 (st : SqlStatement) (o : ColumnOracle) (i : Nat) :
    Except MinSqliteWrapperError Int × List NativeCall :=
  getData_i64 o i

/-- Outcome of `Operations::execute for Database`. -/
structure ExecOutcome : Type where
  result : Except MinSqliteWrapperError SqlitePrimaryResult
  nativeCalls : List NativeCall
  callbackArgs : List SqlitePrimaryResult
  deriving DecidableEq, Repr

/-- `Operations::execute for Database` (`operations.rs:1009-1029`):
`CString::new` first (its error propagates with `?` before any native call);
then one `sqlite3_exec`; if the status differs from `Ok as i32 = 0` and a
callback was supplied the callback is invoked once with
`from_i8(status as i8)`; the function returns `Ok(from_i8(status as i8))`.
`nativeStatus` is the integer `sqlite3_exec` returns, `callbackProvided`
whether `callback_fn` is `Some`. -/
def Database.execute (db : Database) (statement : List Nat)
    (callbackProvided : Bool) (nativeStatus : Int) : ExecOutcome :=
  match cstringNew statement with
  | .error e => ⟨.error e.toWrapper, [], []⟩
  | .ok _ =>
    ⟨.ok (.from_i8 (asI8 nativeStatus)), [.exec db.rp],
     if nativeStatus ≠ 0 then
       if callbackProvided then [.from_i8 (asI8 nativeStatus)] else []
     else []⟩

/-- Outcome of `Operations::prepare for Database`. -/
structure PrepareOutcome : Type where
  result : Except MinSqliteWrapperError SqlStatement
  nativeCalls : List NativeCall
  callbackArgs : List SqlitePrimaryResult
  deriving DecidableEq, Repr

/-- `Operations::prepare for Database` (`operations.rs:1031-1060`):
`CString::new` first (error propagates before any native call); then one
`sqlite3_prepare_v2` writing the out-pointer (initialized null); if the
status differs from 0 and a callback was supplied it is invoked once with
`from_i8(status as i8)`; the function always returns
`Ok(SqlStatement::new(stmt))` with whatever pointer the native call left.
`nativeStatus` and `nativeStmtPtr` are what the native call produces. -/
def Database.prepare (db : Database) (statement : List Nat)
    (callbackProvided : Bool) (nativeStatus : Int) (nativeStmtPtr : Nat) :
    PrepareOutcome :=
  match cstringNew statement with
  | .error e => ⟨.error e.toWrapper, [], []⟩
  | .ok _ =>
    ⟨.ok ⟨nativeStmtPtr⟩, [.prepareV2 db.rp],
     if nativeStatus ≠ 0 then
       if callbackProvided then [.from_i8 (asI8 nativeStatus)] else []
     else []⟩

/-- Outcome of `Connection::open for Database`. -/
structure OpenOutcome : Type where
  result : Except MinSqliteWrapperError Database
  nativeCalls : List NativeCall
  deriving DecidableEq, Repr

/-- `Connection::open for Database` (`connection.rs:57-69`): `CString::new`
on the path bytes (error propagates with `?`); then one `sqlite3_open` whose
returned status is ignored; the function returns `Ok(Database { rp })` with
whatever pointer the native call left in `rp` (initialized null).
`nativeStatus` and `nativeRp` are what the native call produces. -/
def Database.openDb (path : List Nat) (nativeStatus : Int) (nativeRp : Nat) :
    OpenOutcome :=
  match cstringNew path with
  | .error e => ⟨.error e.toWrapper, []⟩
  | .ok _ => ⟨.ok ⟨nativeRp⟩, [.openDb path]⟩

/-- The error kind carried by a failed wrapper result, if any. -/
def errKind {α : Type} : Except MinSqliteWrapperError α → Option String
  | .error e => some e.kind
  | .ok _ => none

/-- One step of a client program against the wrapper's safe public API,
restricted to one connection and one prepared statement. -/
inductive ApiEv : Type
  | openDb
  | prepareStmt
  | closeDb
  | stepStmt
  | killStmt
  deriving DecidableEq, Repr

/-- Which values the client currently holds. -/
structure ApiState : Type where
  dbLive : Bool
  stmtCreated : Bool
  deriving DecidableEq, Repr

/-- What Rust's type system allows for each API call, read off the source
signatures: `open` produces an owned `Database`; `prepare` takes `&self` on a
live `Database` and returns an owned `SqlStatement` that carries no lifetime
parameter tied to the connection (`statement.rs:29`, `operations.rs:999-1005`),
so once created it stays usable independently of the connection; `close`
takes the `Database` by value and consumes it; `execute_prepared` takes
`&mut self` and `kill` takes `&self` on the statement value, which requires
only that the statement value exists. `none` marks a call the borrow checker
rejects. -/
def apiStep : ApiState → ApiEv → Option ApiState
  | s, .openDb => if s.dbLive then none else some { s with dbLive := true }
  | s, .prepareStmt => if s.dbLive then some { s with stmtCreated := true } else none
  | s, .closeDb => if s.dbLive then some { s with dbLive := false } else none
  | s, .stepStmt => if s.stmtCreated then some s else none
  | s, .killStmt => if s.stmtCreated then some s else none

/-- A sequence of API calls accepted (well-typed) from a given state. -/
def wellTyped : ApiState → List ApiEv → Bool
  | _, [] => true
  | s, e :: rest =>
    match apiStep s e with
    | some s2 => wellTyped s2 rest
    | none => false

/-- The state of a client that holds nothing yet. -/
def apiStart : ApiState := ⟨false, false⟩

/-- Whether the trace steps, reads or kills the statement after the
connection was closed. -/
def usesStmtAfterClose : List ApiEv → Bool
  | [] => false
  | .closeDb :: rest =>
    rest.any (fun e => e = ApiEv.stepStmt || e = ApiEv.killStmt) || usesStmtAfterClose rest
  | _ :: rest => usesStmtAfterClose rest

/-- Claim C7: the conversion `From<i32> for SqlitePrimaryResult` is a
faithful mirror of the native status codes: for every integer `v` in
`[0, 28]` it yields the enumerated variant whose discriminant is `v`
(in particular `Ok` for 0, `Error` for 1, `Busy` for 5, `Locked` for 6,
`Constrait` for 19, `Range` for 25), and for every other integer it yields
the fallback `Other v` carrying exactly `v`. -/
theorem from_i32_mirrors_status_codes (v : Int) :
    SqlitePrimaryResult.fromCode 0 = .Ok ∧
    SqlitePrimaryResult.fromCode 1 = .Error ∧
    SqlitePrimaryResult.fromCode 5 = .Busy ∧
    SqlitePrimaryResult.fromCode 6 = .Locked ∧
    SqlitePrimaryResult.fromCode 19 = .Constrait ∧
    SqlitePrimaryResult.fromCode 25 = .Range ∧
    (0 ≤ v ∧ v ≤ 28 →
      (SqlitePrimaryResult.fromCode v).discriminant = v ∧
      (SqlitePrimaryResult.fromCode v).isOtherB = false) ∧
    (¬(0 ≤ v ∧ v ≤ 28) → SqlitePrimaryResult.fromCode v = .Other v) := by
  refine ⟨rfl, rfl, rfl, rfl, rfl, rfl, ?_, ?_⟩
  · rintro ⟨h1, h2⟩
    interval_cases v <;> decide
  · intro h
    unfold SqlitePrimaryResult.fromCode
    rw [if_neg (by omega : ¬v = 0), if_neg (by omega : ¬v = 1),
      if_neg (by omega : ¬v = 2), if_neg (by omega : ¬v = 3),
      if_neg (by omega : ¬v = 4), if_neg (by omega : ¬v = 5),
      if_neg (by omega : ¬v = 6), if_neg (by omega : ¬v = 7),
      if_neg (by omega : ¬v = 8), if_neg (by omega : ¬v = 9),
      if_neg (by omega : ¬v = 10), if_neg (by omega : ¬v = 11),
      if_neg (by omega : ¬v = 12), if_neg (by omega : ¬v = 13),
      if_neg (by omega : ¬v = 14), if_neg (by omega : ¬v = 15),
      if_neg (by omega : ¬v = 16), if_neg (by omega : ¬v = 17),
      if_neg (by omega : ¬v = 18), if_neg (by omega : ¬v = 19),
      if_neg (by omega : ¬v = 20), if_neg (by omega : ¬v = 21),
      if_neg (by omega : ¬v = 22), if_neg (by omega : ¬v = 23),
      if_neg (by omega : ¬v = 24), if_neg (by omega : ¬v = 25),
      if_neg (by omega : ¬v = 26), if_neg (by omega : ¬v = 27),
      if_neg (by omega : ¬v = 28)]

/-- Witness for C7: the theorem applied at the in-range code 19 and the
out-of-range code 29. -/
theorem from_i32_mirrors_status_codes_witness :
    (SqlitePrimaryResult.fromCode 19).discriminant = 19 ∧
    SqlitePrimaryResult.fromCode 29 = .Other 29 := by
  constructor
  · exact ((from_i32_mirrors_status_codes 19).2.2.2.2.2.2.1 (by decide)).1
  · exact (from_i32_mirrors_status_codes 29).2.2.2.2.2.2.2 (by decide)

/-- Claim C8: `execute_prepared` returns `FoundRow` exactly when the native
`sqlite3_step` status is 100, `Done` exactly when it is 101, and otherwise
`Other` carrying exactly the raw status; it performs exactly one native step
call on the wrapped pointer. -/
theorem execute_prepared_step_status_mapping (st : SqlStatement) (s : Int) :
    ((st.execute_prepared s).1 = .FoundRow ↔ s = 100) ∧
    ((st.execute_prepared s).1 = .Done ↔ s = 101) ∧
    (s ≠ 100 → s ≠ 101 → (st.execute_prepared s).1 = .Other s) ∧
    (st.execute_prepared s).2 = [.step st.ptr] := by
  unfold SqlStatement.execute_prepared
  refine ⟨?_, ?_, ?_, rfl⟩ <;> split_ifs with h1 h2 <;> simp_all

/-- Witness for C8: the theorem applied at the statuses 100 and 37. -/
theorem execute_prepared_step_status_mapping_witness :
    (SqlStatement.mk 1 |>.execute_prepared 100).1 = .FoundRow ∧
    (SqlStatement.mk 1 |>.execute_prepared 37).1 = .Other 37 := by
  constructor
  · exact (execute_prepared_step_status_mapping ⟨1⟩ 100).1.2 rfl
  · exact (execute_prepared_step_status_mapping ⟨1⟩ 37).2.2.1 (by decide) (by decide)

/-- Claim C2 (code bug): an explicit `db.close()` does not release the
connection exactly once — the body's `sqlite_close` runs and then the
implicit drop of the consumed `self` runs `Drop for Database`, so the native
`sqlite3_close` is invoked twice on the same pointer (shown here at pointer
1 with both native calls returning 0). -/
theorem explicit_close_invokes_native_close_twice :
    (Database.closeCall ⟨1⟩ 0 0).2 = [.closeDb 1, .closeDb 1] ∧
    countCalls (.closeDb 1) (Database.closeCall ⟨1⟩ 0 0).2 = 2 := by
  decide

/-- Claim C3 (code bug): the native finalize is not invoked exactly once per
statement pointer — an explicit `kill()` followed by the automatic drop
finalizes the same pointer twice, and so does dropping a statement together
with a clone of it (shown at pointer 1 with native statuses 0). -/
theorem kill_then_drop_finalizes_twice :
    countCalls (.finalize 1) (SqlStatement.killThenDrop ⟨1⟩ 0 0) = 2 ∧
    countCalls (.finalize 1) (SqlStatement.dropWithClone ⟨1⟩ 0 0) = 2 := by
  decide

/-- Claim C4 counterexample: it is not true that every well-typed sequence of
safe API calls avoids using a statement after its connection was closed —
the concrete sequence open; prepare; close; step is accepted by the types
and steps the statement after the close. -/
theorem statement_outlives_connection_cex :
    ¬ (∀ tr : List ApiEv, wellTyped apiStart tr = true →
        usesStmtAfterClose tr = false) := by
  intro hall
  exact absurd
    (hall [.openDb, .prepareStmt, .closeDb, .stepStmt] (by decide)) (by decide)

/-- Claim C4 (amended): the safe API does not prevent a prepared statement
from outliving its connection — the sequence open; prepare; close; step is
well-typed, so keeping the invariant is a caller obligation (as the crate's
examples document), not a property enforced by the types. -/
theorem step_after_close_reachable :
    wellTyped apiStart [.openDb, .prepareStmt, .closeDb, .stepStmt] = true ∧
    usesStmtAfterClose [.openDb, .prepareStmt, .closeDb, .stepStmt] = true := by
  decide

/-- Claim C1 counterexample: with the native `sqlite3_exec` status 261
(outside the 8-bit range; low byte 5) and a NUL-free statement, `execute`
returns `Ok(Busy)` rather than `Ok(Other(261))` — the raw integer is not
reported faithfully. -/
theorem execute_status_truncation_cex :
    (Database.execute ⟨1⟩ [65] false 261).result = .ok .Busy ∧
    (Database.execute ⟨1⟩ [65] false 261).result ≠ .ok (.Other 261) := by
  decide

/-- Claim C1 (amended): for every NUL-free statement, `execute` returns `Ok`
of the result code obtained by first truncating the native status to its low
8 bits (two's complement, the `status as i8` cast) and then mirroring that
value; for statuses within `[-128, 127]` this coincides with the faithful
mirror of the native status. -/
theorem execute_reports_truncated_status (db : Database) (stmt : List Nat)
    (cb : Bool) (s : Int) (hnul : 0 ∉ stmt) :
    (db.execute stmt cb s).result = .ok (.from_i8 (asI8 s)) ∧
    (-128 ≤ s → s ≤ 127 →
      SqlitePrimaryResult.from_i8 (asI8 s) = .fromCode s) := by
  constructor
  · unfold Database.execute cstringNew
    simp [hnul]
  · intro h1 h2
    have hs : asI8 s = s := by
      unfold asI8
      split_ifs <;> omega
    rw [hs]
    rfl

/-- Witness for C1 (amended): the theorem applied to the statement bytes
`[65]` and status 5. -/
theorem execute_reports_truncated_status_witness :
    (Database.execute ⟨1⟩ [65] false 5).result = .ok (.from_i8 (asI8 5)) ∧
    SqlitePrimaryResult.from_i8 (asI8 5) = .fromCode 5 := by
  have h := execute_reports_truncated_status ⟨1⟩ [65] false 5 (by decide)
  exact ⟨h.1, h.2 (by decide) (by decide)⟩

/-- Claim C5 counterexample: for the target type `i64` the decode path never
queries the column-type tag — even on a column whose tag is NULL (5) it
performs only `sqlite3_column_int64` and decodes by the requested type
alone. -/
theorem get_data_i64_ignores_column_type_cex :
    (getData_i64 ⟨5, 7⟩ 0).2 = [.columnInt64 0] ∧
    NativeCall.columnType 0 ∉ (getData_i64 ⟨5, 7⟩ 0).2 ∧
    (getData_i64 ⟨5, 7⟩ 0).1 = .ok 7 := by
  decide

/-- Claim C5 (amended): only the `Option`-typed targets consult the explicit
column-type tag, and only to decide nullness — their first native call is the
column-type query, returning `None` on the NULL tag and otherwise decoding
by the requested type; the non-optional targets (shown at `i64`) issue no
column-type query at all and decode solely by the requested target type. -/
theorem get_data_null_check_only_for_option (o : ColumnOracle) (i : Nat) :
    ((getData_i64 o i).2 = [.columnInt64 (usizeAsCInt i)] ∧
      ∀ c, NativeCall.columnType c ∉ (getData_i64 o i).2) ∧
    (getData_optI64 o i).2.head? = some (.columnType (usizeAsCInt i)) ∧
    (ctypeIsNull o.ctype = true →
      getData_optI64 o i = (.ok none, [.columnType (usizeAsCInt i)])) ∧
    (ctypeIsNull o.ctype = false →
      getData_optI64 o i =
        (.ok (some o.intVal),
          [.columnType (usizeAsCInt i), .columnInt64 (usizeAsCInt i)])) := by
  refine ⟨⟨rfl, ?_⟩, ?_, ?_, ?_⟩
  · intro c
    simp [getData_i64]
  · unfold getData_optI64
    split_ifs <;> rfl
  · intro h
    simp [getData_optI64, h]
  · intro h
    simp [getData_optI64, h]

/-- Witness for C5 (amended): the theorem applied to a NULL-tagged column
oracle at index 0. -/
theorem get_data_null_check_only_for_option_witness :
    getData_optI64 ⟨5, 7⟩ 0 = (.ok none, [.columnType 0]) := by
  exact (get_data_null_check_only_for_option ⟨5, 7⟩ 0).2.2.1 (by decide)

/-- Claim C6 counterexample: `bind_val` does not forward every index `i ≥ 1`
unchanged — at `i = 2^31` the `usize → c_int` cast wraps and the native bind
call receives parameter position `-2^31`. -/
theorem bind_index_cint_truncation_cex :
    (SqlStatement.bind_val_i64 ⟨1⟩ (2 ^ 31) 42 0).2 = [.bindInt64 (-(2 ^ 31))] ∧
    (-(2 ^ 31) : Int) ≠ ((2 ^ 31 : Nat) : Int) := by
  decide

/-- Claim C6 (amended): bind and read indices live in independent spaces:
`bind_val 0` returns `Range` without any native call, `bind_val i` for
`i ≥ 1` forwards `i` through the `usize → c_int` cast as the 1-based
parameter position (unchanged whenever `i < 2^31`), and `get_data i`
forwards `i` through the same cast as the 0-based column position. -/
theorem bind_one_based_read_zero_based (st : SqlStatement) (v nb : Int)
    (o : ColumnOracle) (i : Nat) :
    st.bind_val_i64 0 v nb = (.Range, []) ∧
    (i ≠ 0 → (st.bind_val_i64 i v nb).2 = [.bindInt64 (usizeAsCInt i)]) ∧
    (st.get_data_i64 o i).2 = [.columnInt64 (usizeAsCInt i)] ∧
    (i < 2 ^ 31 → usizeAsCInt i = (i : Int)) := by
  refine ⟨rfl, ?_, rfl, ?_⟩
  · intro h
    simp [SqlStatement.bind_val_i64, h]
  · intro h
    unfold usizeAsCInt
    split_ifs <;> omega

/-- Witness for C6 (amended): the theorem applied at index 3. -/
theorem bind_one_based_read_zero_based_witness :
    (SqlStatement.bind_val_i64 ⟨1⟩ 3 42 0).2 = [.bindInt64 (usizeAsCInt 3)] ∧
    usizeAsCInt 3 = 3 := by
  have h := bind_one_based_read_zero_based ⟨1⟩ 42 0 ⟨1, 7⟩ 3
  exact ⟨h.2.1 (by decide), h.2.2.2 (by decide)⟩

/-- Claim C9: `execute` and `prepare` return `Err` exactly when the
statement bytes contain a NUL byte; the error kind is the NUL-conversion
kind `"std:ffi:NulError"`, and in that case no native call is performed and
no callback is invoked, so nothing observable through the wrapper changes. -/
theorem nul_byte_error_no_native_calls (db : Database) (stmt : List Nat)
    (cb : Bool) (s : Int) (p : Nat) :
    ((errKind (db.execute stmt cb s).result ≠ none) ↔ 0 ∈ stmt) ∧
    ((errKind (db.prepare stmt cb s p).result ≠ none) ↔ 0 ∈ stmt) ∧
    (0 ∈ stmt →
      errKind (db.execute stmt cb s).result = some "std:ffi:NulError" ∧
      (db.execute stmt cb s).nativeCalls = [] ∧
      (db.execute stmt cb s).callbackArgs = [] ∧
      errKind (db.prepare stmt cb s p).result = some "std:ffi:NulError" ∧
      (db.prepare stmt cb s p).nativeCalls = [] ∧
      (db.prepare stmt cb s p).callbackArgs = []) := by
  by_cases h : 0 ∈ stmt <;>
    simp [Database.execute, Database.prepare, cstringNew, h, errKind,
      NulError.toWrapper]

/-- Witness for C9: the theorem applied to the statement bytes `[65, 0]`
(which contain a NUL). -/
theorem nul_byte_error_no_native_calls_witness :
    errKind (Database.execute ⟨1⟩ [65, 0] true 0).result =
      some "std:ffi:NulError" ∧
    (Database.execute ⟨1⟩ [65, 0] true 0).nativeCalls = [] := by
  have h := nul_byte_error_no_native_calls ⟨1⟩ [65, 0] true 0 0
  exact ⟨(h.2.2 (by decide)).1, (h.2.2 (by decide)).2.1⟩

/-- Claim C10: `open` and `prepare` never reflect the native status in their
`Result` — for NUL-free inputs they return `Ok` whatever the native call
returned (the whole open outcome is independent of the status, and `prepare`
wraps whatever pointer the native call produced, a null pointer under the
native contract that a failed prepare writes null); a native prepare failure
is observable only through the optional callback, invoked exactly once when
the status is not 0 and a callback was supplied, and never when the status
is 0. -/
theorem open_prepare_always_ok_callback_once (path stmt : List Nat)
    (cb : Bool) (s s2 : Int) (rp ptr : Nat)
    (hp : 0 ∉ path) (hs : 0 ∉ stmt) :
    (Database.openDb path s rp).result = .ok ⟨rp⟩ ∧
    Database.openDb path s rp = Database.openDb path s2 rp ∧
    ((Database.mk rp).prepare stmt cb s ptr).result = .ok ⟨ptr⟩ ∧
    ((Database.mk rp).prepare stmt cb s ptr).callbackArgs.length =
      (if s ≠ 0 ∧ cb = true then 1 else 0) ∧
    ((s ≠ 0 → ptr = 0) → s ≠ 0 →
      ((Database.mk rp).prepare stmt cb s ptr).result = .ok ⟨0⟩) := by
  refine ⟨?_, ?_, ?_, ?_, ?_⟩
  · simp [Database.openDb, cstringNew, hp]
  · simp [Database.openDb, cstringNew, hp]
  · simp [Database.prepare, cstringNew, hs]
  · by_cases hs0 : s = 0 <;> by_cases hcb : cb <;>
      simp [Database.prepare, cstringNew, hs, hs0, hcb]
  · intro hc hsne
    rw [hc hsne] at *
    simp [Database.prepare, cstringNew, hs]

/-- Witness for C10: the theorem applied to path `[47]`, statement `[83]`, a
supplied callback, native status 1 (failure) and the null out-pointer. -/
theorem open_prepare_always_ok_callback_once_witness :
    (Database.openDb [47] 1 7).result = .ok ⟨7⟩ ∧
    ((Database.mk 7).prepare [83] true 1 0).callbackArgs.length = 1 ∧
    ((Database.mk 7).prepare [83] true 1 0).result = .ok ⟨0⟩ := by
  have h := open_prepare_always_ok_callback_once [47] [83] true 1 2 7 0
    (by decide) (by decide)
  refine ⟨h.1, ?_, h.2.2.2.2 (fun _ => rfl) (by decide)⟩
  rw [h.2.2.2.1]
  decide

end MinSqlite3
